import Mathlib

/-
Verification of the c_heater example application (fw/examples/c_heater/src/main.c):
an embedded controller that reads an MCP9808 temperature sensor over I2C,
drives a heater relay plus indicator LED from HTTP requests, and periodically
reports the temperature to a configured URL with a single-flight guard.

The embedding is shallow: the pure decode arithmetic becomes a Lean function
over ℚ (every value the C code manipulates here is an exact dyadic rational,
so double arithmetic is exact and ℚ is faithful); the stateful pieces
(GPIO/actuator, the reporter's pending-connection handle) become explicit
state passing; the I2C bus becomes a response record plus a trace of the
operations the driver performed.
-/

namespace HeaterApp

/-! ## Constants from main.c -/

def LED_GPIO : Nat := 10

def RELAY_GPIO : Nat := 13

def MCP9808_ADDR : Nat := 0x1F

/-- Sentinel returned by mc6808_read_temp on any bus failure. -/
def sentinel : ℚ := -1000

/-! ## I2C bus model

The driver primitives (i2c_start, i2c_send_byte, i2c_read_byte, i2c_stop)
are external collaborators.  We model one full transaction attempt by a
record of the responses the bus would give, and make the read function
return the trace of operations it actually performed, so that claims about
"no further bus transfers" are statable. -/

/-- One bus operation issued by the driver, as observable on the wire. -/
inductive I2COp where
  | start (addr : Nat) (isRead : Bool)
  | sendByte (b : Nat)
  | readByte (ackAfter : Bool)
  | stop
deriving DecidableEq, Repr

/-- Responses the bus gives during one read_temperature transaction:
whether each of the two starts is acknowledged, and the two register
bytes the sensor would return. -/
structure BusResponse where
  ackWrite : Bool
  ackRead : Bool
  upper : Nat
  lower : Nat
deriving DecidableEq, Repr

/-- Decode arithmetic of mc6808_read_temp, lines 40-47 of main.c:
mask upper to its low 5 bits; if bit 4 is set, clear it and compute
the negative branch, else the positive branch.  All arithmetic is exact
in double for bytes, so ℚ is a faithful carrier. -/
def decodeTemp (upper lower : Nat) : ℚ :=
  let u := upper &&& 0x1f
  if (u &&& 0x10) ≠ 0 then
    let u2 := u &&& 0xf;
    -(256 - ((u2 : ℚ) * 16 + (lower : ℚ) / 16))
  else
    (u : ℚ) * 16 + (lower : ℚ) / 16

/-- mc6808_read_temp of main.c: start a write transaction to MCP9808_ADDR
(return the sentinel at once if not acknowledged), send register selector
0x05, start a read transaction (sentinel if not acknowledged), read two
bytes (first acked, second nacked), stop, then decode.  Returns the value
together with the trace of bus operations performed. -/
def mc6808_read_temp (bus : BusResponse) : ℚ × List I2COp :=
  if bus.ackWrite = false then
    (sentinel, [I2COp.start MCP9808_ADDR false])
  else if bus.ackRead = false then
    (sentinel, [I2COp.start MCP9808_ADDR false, I2COp.sendByte 0x05,
                I2COp.start MCP9808_ADDR true])
  else
    (decodeTemp bus.upper bus.lower,
     [I2COp.start MCP9808_ADDR false, I2COp.sendByte 0x05,
      I2COp.start MCP9808_ADDR true, I2COp.readByte true,
      I2COp.readByte false, I2COp.stop])

/-! ## Two-decimal formatting

mg_printf / mg_asprintf format the reading with %.2lf.  Every reachable
value is an exact dyadic rational, so the double holds it exactly and
printf rounds the exact value to two decimals, ties to even. -/

/-- Round a rational to the nearest integer, ties to even (the IEEE
rounding printf applies to the exactly-represented value). -/
def roundHalfEven (x : ℚ) : ℤ :=
  let n := ⌊x⌋
  let f := x - (n : ℚ)
  if f > 1 / 2 then n + 1
  else if f < 1 / 2 then n
  else if n % 2 = 0 then n else n + 1

/-- Render a rational as printf %.2lf does for exactly-representable
values: sign, integer part, dot, two fraction digits. -/
def fmt2 (q : ℚ) : String :=
  let h := roundHalfEven (q * 100)
  let a := h.natAbs
  let fp := a % 100
  (if h < 0 then "-" else "") ++ toString (a / 100) ++ "." ++
    (if fp < 10 then "0" else "") ++ toString fp

/-! ## GPIO and actuator state

s_heater, the LED and relay pins, and the console log, as explicit state. -/

/-- Logical level of a GPIO output pin. -/
inductive Level where
  | low
  | high
deriving DecidableEq, Repr

/-- Mutable state touched by the actuator controller: the GPIO output
levels, the stored s_heater boolean, and the console log. -/
structure SysState where
  gpio : Nat → Level
  heater : Bool
  log : List String

/-- mg_gpio_write: set one pin's output level. -/
def gpioWrite (pin : Nat) (lvl : Level) (s : SysState) : SysState :=
  { s with gpio := fun p => if p = pin then lvl else s.gpio p }

/-- The ternary (on ? GPIO_LEVEL_HIGH : GPIO_LEVEL_LOW) used in set_heater. -/
def levelFor (isOn : Bool) : Level :=
  if isOn then Level.high else Level.low

/-- set_heater of main.c: log one line, write the LED pin, write the relay
pin, store the boolean. -/
def set_heater (isOn : Bool) (s : SysState) : SysState :=
  let s1 := { s with log := s.log ++ ["Heater " ++ (if isOn then "on" else "off")] }
  let s2 := gpioWrite LED_GPIO (levelFor isOn) s1
  let s3 := gpioWrite RELAY_GPIO (levelFor isOn) s2
  { s3 with heater := isOn }

/-- Reading s_heater (the code reads the static variable directly). -/
def get_heater (s : SysState) : Bool :=
  s.heater

/-- Invariant relating the two outputs to the stored boolean. -/
def actuator_outputs_match (s : SysState) : Prop :=
  s.gpio LED_GPIO = levelFor s.heater ∧ s.gpio RELAY_GPIO = levelFor s.heater

/-! ## HTTP control surface -/

/-- Substring test on rendered output (true iff pat occurs in s). -/
def strContains (s pat : String) : Bool :=
  (List.range (s.data.length + 1)).any fun i =>
    (s.data.drop i).take pat.data.length == pat.data

/-- The HTML body handle_heater produces via mg_printf, with the format
string of main.c lines 64-71 instantiated.  The middle group is the
temperature paragraph, the piece the status-page claims are about. -/
def heater_page (temp : ℚ) (heater : Bool) (fw_version fw_id : String) : String :=
  "<h1>Welcome to Cesanta Office IoT!</h1>\r\n<p>" ++
    (("Temperature is " ++ fmt2 temp ++ "&deg;C.") ++
     ("</p>\r\n<p>Heater is " ++ (if heater then "on" else "off") ++
      ".</p>\r\n<form action=/heater/" ++ (if heater then "off" else "on") ++
      "><input type=submit value=\x27Turn heater " ++ (if heater then "off" else "on") ++
      "\x27></form>\r\n<hr>\r\nHeater FW " ++ fw_version ++ " (" ++ fw_id ++ ")"))

/-- Response of the status handler: status line, body, connection fate. -/
structure StatusResponse where
  status : Nat
  body : String
  closeConn : Bool
deriving DecidableEq, Repr

/-- handle_heater of main.c: send a 200 response line, read the sensor,
render the page, flag MG_F_SEND_AND_CLOSE. -/
def handle_heater (bus : BusResponse) (s : SysState) (fw_version fw_id : String) :
    StatusResponse :=
  { status := 200,
    body := heater_page (mc6808_read_temp bus).1 s.heater fw_version fw_id,
    closeConn := true }

/-- Response of the action handler: a redirect. -/
structure ActionResponse where
  status : Nat
  location : Option String
  closeConn : Bool
deriving DecidableEq, Repr

/-- handle_heater_action of main.c: compare the URI exactly (mg_vcmp)
against /heater/on and /heater/off, call set_heater on a match, do nothing
otherwise, then always send a 302 redirect to /heater and close. -/
def handle_heater_action (uri : String) (s : SysState) : SysState × ActionResponse :=
  let s2 :=
    if uri = "/heater/on" then set_heater true s
    else if uri = "/heater/off" then set_heater false s
    else s
  (s2, { status := 302, location := some "/heater", closeConn := true })

/-! ## Periodic reporter -/

/-- One outbound HTTP request created by mg_connect_http: destination URL,
optional extra header block, POST body. -/
structure Post where
  url : Option String
  authHeader : Option String
  body : String
deriving DecidableEq, Repr

/-- The hsw section of the system configuration (read-only). -/
structure HswConfig where
  auth : Option String
  sensor_data_url : Option String
  sensor_report_interval_ms : Int
deriving DecidableEq, Repr

/-- Reporter state: s_sensor_conn as an optional connection id (none =
Idle, some = Reporting), a fresh-id counter for new connections, and the
list of outbound requests dispatched so far. -/
structure ReporterState where
  pending : Option Nat
  nextConnId : Nat
  posts : List Post
deriving DecidableEq, Repr

/-- The mg_asprintf format of main.c line 126. -/
def json_body (temp : ℚ) : String :=
  "\x7b\"office_temperature\": " ++ fmt2 temp ++ "\x7d"

/-- The optional Authorization header block of main.c lines 127-129. -/
def auth_header (auth : Option String) : Option String :=
  auth.map fun a => "Authorization: " ++ a ++ "\r\n"

/-- sensor_timer_cb of main.c: single-flight guard, sensor read, sentinel
guard, then one mg_connect_http whose handle is recorded in s_sensor_conn.
Also returns the bus operations performed, to state bus-side effects. -/
def sensor_timer_cb (cfg : HswConfig) (bus : BusResponse) (s : ReporterState) :
    ReporterState × List I2COp :=
  if s.pending.isSome then (s, [])
  else
    let r := mc6808_read_temp bus
    if r.1 ≤ -1000 then (s, r.2)
    else
      ({ pending := some s.nextConnId,
         nextConnId := s.nextConnId + 1,
         posts := s.posts ++ [{ url := cfg.sensor_data_url,
                                authHeader := auth_header cfg.auth,
                                body := json_body r.1 }] }, r.2)

/-- Events delivered to the outbound connection's handler. -/
inductive ConnEvent where
  | httpReply
  | close
  | other
deriving DecidableEq, Repr

/-- Per-connection flags (MG_F_CLOSE_IMMEDIATELY). -/
structure ConnState where
  closeImmediately : Bool
deriving DecidableEq, Repr

/-- handle_sensor_conn of main.c: on MG_EV_HTTP_REPLY flag the connection
for immediate close; on MG_EV_CLOSE clear s_sensor_conn; ignore others. -/
def handle_sensor_conn (ev : ConnEvent) (c : ConnState) (s : ReporterState) :
    ConnState × ReporterState :=
  match ev with
  | ConnEvent.httpReply => ({ c with closeImmediately := true }, s)
  | ConnEvent.close => (c, { s with pending := none })
  | ConnEvent.other => (c, s)

/-! ## Bootstrap -/

/-- Static initializer of s_heater in main.c. -/
def initial_heater : Bool := false

/-- The GPIO effects of mg_app_init: both output pins driven low.  (It also
registers the three HTTP endpoints and arms the reporting timer; those are
wiring to the external runtime, captured by timer_armed below.) -/
def mg_app_init (s : SysState) : SysState :=
  gpioWrite RELAY_GPIO Level.low (gpioWrite LED_GPIO Level.low s)

/-- Condition under which mg_app_init arms the reporting timer. -/
def timer_armed (cfg : HswConfig) : Bool :=
  cfg.sensor_report_interval_ms > 0 && cfg.sensor_data_url.isSome

/-! ## Helper lemmas about the decoder -/

lemma decodeTemp_sixteenths (u l : Nat) :
    ∃ n : ℤ, decodeTemp u l = (n : ℚ) / 16 := by
  unfold decodeTemp
  by_cases h : ((u &&& 0x1f) &&& 0x10) = 0
  · refine ⟨((u &&& 0x1f) * 256 + l : ℕ), ?_⟩
    simp only [h, ne_eq, not_true_eq_false, if_false]
    push_cast
    ring
  · refine ⟨(((u &&& 0x1f) &&& 0xf) * 256 + l : ℕ) - 4096, ?_⟩
    simp only [h, ne_eq, not_false_eq_true, if_true]
    push_cast
    ring

lemma decodeTemp_lower_bound (u l : Nat) : -256 ≤ decodeTemp u l := by
  unfold decodeTemp
  by_cases h : ((u &&& 0x1f) &&& 0x10) = 0
  · simp only [h, ne_eq, not_true_eq_false, if_false]
    have h1 : (0 : ℚ) ≤ (((u &&& 0x1f) : Nat) : ℚ) * 16 + (l : ℚ) / 16 := by
      positivity
    linarith
  · simp only [h, ne_eq, not_false_eq_true, if_true]
    have h1 : (0 : ℚ) ≤ (((u &&& 0x1f) &&& 0xf : Nat) : ℚ) * 16 + (l : ℚ) / 16 := by
      positivity
    linarith

lemma masked_no_bit4_le_15 (u : Nat) (hu : u ≤ 31) (h : u &&& 16 = 0) : u ≤ 15 := by
  by_contra hlt
  push_neg at hlt
  interval_cases u <;> exact absurd h (by decide)

lemma decodeTemp_upper_bound (u l : Nat) (hl : l ≤ 255) :
    decodeTemp u l ≤ 4095 / 16 := by
  have hl16 : (l : ℚ) / 16 ≤ 255 / 16 := by
    have : (l : ℚ) ≤ 255 := by exact_mod_cast hl
    linarith
  unfold decodeTemp
  by_cases h : ((u &&& 0x1f) &&& 0x10) = 0
  · simp only [h, ne_eq, not_true_eq_false, if_false]
    have h31 : (u &&& 0x1f) ≤ 31 := Nat.and_le_right
    have h15 : (u &&& 0x1f) ≤ 15 := masked_no_bit4_le_15 _ h31 h
    have : (((u &&& 0x1f) : Nat) : ℚ) ≤ 15 := by exact_mod_cast h15
    linarith
  · simp only [h, ne_eq, not_false_eq_true, if_true]
    have h15 : ((u &&& 0x1f) &&& 0xf) ≤ 15 := Nat.and_le_right
    have : (((u &&& 0x1f) &&& 0xf : Nat) : ℚ) ≤ 15 := by exact_mod_cast h15
    linarith

lemma decodeTemp_gt_sentinel (u l : Nat) : -1000 < decodeTemp u l := by
  have := decodeTemp_lower_bound u l
  linarith

lemma read_temp_success (bus : BusResponse)
    (hw : bus.ackWrite = true) (hr : bus.ackRead = true) :
    mc6808_read_temp bus =
      (decodeTemp bus.upper bus.lower,
       [I2COp.start MCP9808_ADDR false, I2COp.sendByte 0x05,
        I2COp.start MCP9808_ADDR true, I2COp.readByte true,
        I2COp.readByte false, I2COp.stop]) := by
  simp [mc6808_read_temp, hw, hr]

/-! ## Claim theorems -/

/-- C1: for every pair of raw register bytes returned by an acknowledged
sensor read, the decoded temperature equals, with u the upper byte masked
to its low 5 bits: u*16 + lower/16 when bit 4 of u is clear, and
-(256 - ((u cleared of bit 4)*16 + lower/16)) when bit 4 is set; the
result is an integer multiple of 1/16 (no further rounding). -/
theorem C1_decode_correct (bus : BusResponse)
    (hw : bus.ackWrite = true) (hr : bus.ackRead = true) :
    ((mc6808_read_temp bus).1 =
      if ((bus.upper &&& 0x1f) &&& 0x10) = 0 then
        ((bus.upper &&& 0x1f : Nat) : ℚ) * 16 + (bus.lower : ℚ) / 16
      else
        -(256 - ((((bus.upper &&& 0x1f) &&& 0xf : Nat) : ℚ) * 16 + (bus.lower : ℚ) / 16))) ∧
    ∃ n : ℤ, (mc6808_read_temp bus).1 = (n : ℚ) / 16 := by
  rw [read_temp_success bus hw hr]
  constructor
  · by_cases h : ((bus.upper &&& 0x1f) &&& 0x10) = 0
    · rw [if_pos h]
      unfold decodeTemp
      simp [h]
    · rw [if_neg h]
      unfold decodeTemp
      simp [h]
  · exact decodeTemp_sixteenths bus.upper bus.lower

/-- Witness for C1 at the spec's documented example: upper = 0x1F,
lower = 0xF0 decodes to exactly -1 °C. -/
theorem C1_decode_correct_witness :
    (mc6808_read_temp { ackWrite := true, ackRead := true, upper := 0x1F, lower := 0xF0 }).1
      = -1 := by
  have h := C1_decode_correct
    { ackWrite := true, ackRead := true, upper := 0x1F, lower := 0xF0 } rfl rfl
  rw [h.1]
  norm_num [show (31 : Nat) &&& 31 = 31 from by decide,
    show (31 : Nat) &&& 16 = 16 from by decide,
    show (31 : Nat) &&& 15 = 15 from by decide]

/-- C6: if the initial write-addressed start is not acknowledged, the read
returns the sentinel having performed only that start (no selector byte,
no read start, no byte reads, no stop); if the read-addressed start is the
one not acknowledged, the sentinel is returned with no byte reads and no
stop. -/
theorem C6_nack_early_return (bus : BusResponse) :
    (bus.ackWrite = false →
      mc6808_read_temp bus = (sentinel, [I2COp.start MCP9808_ADDR false])) ∧
    (bus.ackWrite = true → bus.ackRead = false →
      mc6808_read_temp bus =
        (sentinel, [I2COp.start MCP9808_ADDR false, I2COp.sendByte 0x05,
                    I2COp.start MCP9808_ADDR true])) := by
  refine ⟨fun h1 => ?_, fun h1 h2 => ?_⟩
  · simp [mc6808_read_temp, h1]
  · simp [mc6808_read_temp, h1, h2]

/-- Witness for C6: a concrete unacknowledged write start produces the
sentinel and a single-element bus trace. -/
theorem C6_nack_early_return_witness :
    mc6808_read_temp { ackWrite := false, ackRead := true, upper := 7, lower := 7 } =
      (sentinel, [I2COp.start MCP9808_ADDR false]) :=
  (C6_nack_early_return
    { ackWrite := false, ackRead := true, upper := 7, lower := 7 }).1 rfl

/-- C9: every fully acknowledged read yields a value in [-256, 4095/16]
(that is, up to 255.9375), hence strictly above the sentinel -1000, so the
reporter guard (skip when reading ≤ -1000) never discards a genuine
reading; and every failed read yields a value the guard rejects. -/
theorem C9_success_range (bus : BusResponse)
    (hw : bus.ackWrite = true) (hr : bus.ackRead = true) (hl : bus.lower ≤ 255) :
    (-256 ≤ (mc6808_read_temp bus).1 ∧ (mc6808_read_temp bus).1 ≤ 4095 / 16 ∧
      ¬((mc6808_read_temp bus).1 ≤ -1000)) ∧
    ∀ bus2 : BusResponse, (bus2.ackWrite = false ∨ bus2.ackRead = false) →
      (mc6808_read_temp bus2).1 ≤ -1000 := by
  constructor
  · rw [read_temp_success bus hw hr]
    refine ⟨decodeTemp_lower_bound bus.upper bus.lower,
      decodeTemp_upper_bound bus.upper bus.lower hl, ?_⟩
    exact not_le.mpr (decodeTemp_gt_sentinel bus.upper bus.lower)
  · intro bus2 h2
    by_cases hb : bus2.ackWrite = false
    · simp [mc6808_read_temp, hb, sentinel]
    · have hbt : bus2.ackWrite = true := by
        cases hv : bus2.ackWrite
        · exact absurd hv hb
        · rfl
      have hrf : bus2.ackRead = false := h2.resolve_left hb
      simp [mc6808_read_temp, hbt, hrf, sentinel]

/-- Witness for C9 at the documented example bytes (decoding to -1). -/
theorem C9_success_range_witness :
    (-256 ≤ (mc6808_read_temp { ackWrite := true, ackRead := true, upper := 0x1F, lower := 0xF0 }).1 ∧
      (mc6808_read_temp { ackWrite := true, ackRead := true, upper := 0x1F, lower := 0xF0 }).1 ≤ 4095 / 16 ∧
      ¬((mc6808_read_temp { ackWrite := true, ackRead := true, upper := 0x1F, lower := 0xF0 }).1 ≤ -1000)) ∧
    ∀ bus2 : BusResponse, (bus2.ackWrite = false ∨ bus2.ackRead = false) →
      (mc6808_read_temp bus2).1 ≤ -1000 :=
  C9_success_range { ackWrite := true, ackRead := true, upper := 0x1F, lower := 0xF0 }
    rfl rfl (by decide)

/-- C3: when the pending-report handle is non-empty (state Reporting), a
firing of the reporting timer is a no-op: the reporter state is unchanged
(same handle, no new outbound request recorded) and no bus operation is
performed (no sensor read). -/
theorem C3_single_flight_guard (cfg : HswConfig) (bus : BusResponse)
    (s : ReporterState) (h : s.pending.isSome = true) :
    sensor_timer_cb cfg bus s = (s, []) := by
  simp [sensor_timer_cb, h]

/-- Witness for C3 at a concrete Reporting state. -/
theorem C3_single_flight_guard_witness :
    sensor_timer_cb { auth := none, sensor_data_url := some "http://e/x", sensor_report_interval_ms := 1000 }
      { ackWrite := true, ackRead := true, upper := 1, lower := 2 }
      { pending := some 0, nextConnId := 1, posts := [] } =
      ({ pending := some 0, nextConnId := 1, posts := [] }, []) :=
  C3_single_flight_guard _ _ _ rfl

/-- C4: when the timer fires while Idle and the temperature read returns
the sentinel, the reporter state is unchanged: no outbound request is
created and the handle stays empty. -/
theorem C4_sentinel_skip (cfg : HswConfig) (bus : BusResponse) (s : ReporterState)
    (hidle : s.pending = none) (hs : (mc6808_read_temp bus).1 = sentinel) :
    (sensor_timer_cb cfg bus s).1 = s := by
  unfold sensor_timer_cb
  rw [hidle]
  simp [hs, sentinel]

/-- Witness for C4: a concrete Idle state and a bus that does not
acknowledge leave the reporter state untouched. -/
theorem C4_sentinel_skip_witness :
    (sensor_timer_cb { auth := none, sensor_data_url := some "http://e/x", sensor_report_interval_ms := 1000 }
      { ackWrite := false, ackRead := false, upper := 0, lower := 0 }
      { pending := none, nextConnId := 4, posts := [] }).1 =
      { pending := none, nextConnId := 4, posts := [] } :=
  C4_sentinel_skip _ _ _ rfl rfl

/-- C5: when the timer fires while Idle, the read is fully acknowledged and
a destination URL is configured, exactly one outbound POST is dispatched
with body json_body(reading) (fmt2 giving the two-decimal rendering) and an
Authorization header iff a credential is configured; the handle is recorded
(state Reporting); the close callback of that connection clears the handle
unconditionally (back to Idle), and the reply callback flags the connection
for immediate closure while leaving the handle to be cleared by the close
event of that same connection. -/
theorem C5_report_cycle (cfg : HswConfig) (bus : BusResponse) (s : ReporterState)
    (u : String) (hidle : s.pending = none)
    (hw : bus.ackWrite = true) (hr : bus.ackRead = true)
    (hurl : cfg.sensor_data_url = some u) :
    (sensor_timer_cb cfg bus s).1.posts =
      s.posts ++ [{ url := some u, authHeader := auth_header cfg.auth,
                    body := json_body (mc6808_read_temp bus).1 }] ∧
    (sensor_timer_cb cfg bus s).1.pending = some s.nextConnId ∧
    (∀ c : ConnState,
      (handle_sensor_conn ConnEvent.close c (sensor_timer_cb cfg bus s).1).2.pending = none) ∧
    (∀ c : ConnState,
      (handle_sensor_conn ConnEvent.httpReply c (sensor_timer_cb cfg bus s).1).1.closeImmediately
          = true ∧
        (handle_sensor_conn ConnEvent.httpReply c (sensor_timer_cb cfg bus s).1).2 =
          (sensor_timer_cb cfg bus s).1) := by
  have hread := read_temp_success bus hw hr
  have hguard : ¬((mc6808_read_temp bus).1 ≤ -1000) := by
    rw [hread]
    exact not_le.mpr (decodeTemp_gt_sentinel bus.upper bus.lower)
  have hstep : (sensor_timer_cb cfg bus s).1 =
      { pending := some s.nextConnId, nextConnId := s.nextConnId + 1,
        posts := s.posts ++ [{ url := cfg.sensor_data_url,
                               authHeader := auth_header cfg.auth,
                               body := json_body (mc6808_read_temp bus).1 }] } := by
    unfold sensor_timer_cb
    rw [hidle]
    simp [hguard]
  rw [hstep, hurl]
  refine ⟨rfl, rfl, fun c => rfl, fun c => ⟨rfl, rfl⟩⟩

/-- Witness for C5: a concrete Idle state, a successful read of 0x01/0x90
(25.5625 °C, formatted 25.56), configured URL and credential. -/
theorem C5_report_cycle_witness :
    ((sensor_timer_cb { auth := some "Bearer t", sensor_data_url := some "http://e/x", sensor_report_interval_ms := 1000 }
        { ackWrite := true, ackRead := true, upper := 0x01, lower := 0x90 }
        { pending := none, nextConnId := 7, posts := [] }).1.posts =
      [] ++ [{ url := some "http://e/x",
               authHeader := auth_header (some "Bearer t"),
               body := json_body (mc6808_read_temp
                 { ackWrite := true, ackRead := true, upper := 0x01, lower := 0x90 }).1 }]) ∧
    ((sensor_timer_cb { auth := some "Bearer t", sensor_data_url := some "http://e/x", sensor_report_interval_ms := 1000 }
        { ackWrite := true, ackRead := true, upper := 0x01, lower := 0x90 }
        { pending := none, nextConnId := 7, posts := [] }).1.pending = some 7) ∧
    (∀ c : ConnState,
      (handle_sensor_conn ConnEvent.close c (sensor_timer_cb { auth := some "Bearer t", sensor_data_url := some "http://e/x", sensor_report_interval_ms := 1000 }
        { ackWrite := true, ackRead := true, upper := 0x01, lower := 0x90 }
        { pending := none, nextConnId := 7, posts := [] }).1).2.pending = none) ∧
    (∀ c : ConnState,
      (handle_sensor_conn ConnEvent.httpReply c (sensor_timer_cb { auth := some "Bearer t", sensor_data_url := some "http://e/x", sensor_report_interval_ms := 1000 }
        { ackWrite := true, ackRead := true, upper := 0x01, lower := 0x90 }
        { pending := none, nextConnId := 7, posts := [] }).1).1.closeImmediately = true ∧
      (handle_sensor_conn ConnEvent.httpReply c (sensor_timer_cb { auth := some "Bearer t", sensor_data_url := some "http://e/x", sensor_report_interval_ms := 1000 }
        { ackWrite := true, ackRead := true, upper := 0x01, lower := 0x90 }
        { pending := none, nextConnId := 7, posts := [] }).1).2 =
        (sensor_timer_cb { auth := some "Bearer t", sensor_data_url := some "http://e/x", sensor_report_interval_ms := 1000 }
        { ackWrite := true, ackRead := true, upper := 0x01, lower := 0x90 }
        { pending := none, nextConnId := 7, posts := [] }).1) :=
  C5_report_cycle _ _ _ "http://e/x" rfl rfl rfl rfl

/-- C7: the action handler compares the request path exactly: /heater/on
sets the actuator on, /heater/off sets it off, any other path leaves the
whole state untouched; in every case it responds 302 with Location /heater
and closes the connection. -/
theorem C7_action_routing (uri : String) (s : SysState) :
    (uri = "/heater/on" → (handle_heater_action uri s).1 = set_heater true s) ∧
    (uri = "/heater/off" → (handle_heater_action uri s).1 = set_heater false s) ∧
    (uri ≠ "/heater/on" → uri ≠ "/heater/off" → (handle_heater_action uri s).1 = s) ∧
    (handle_heater_action uri s).2 =
      { status := 302, location := some "/heater", closeConn := true } := by
  refine ⟨fun h => ?_, fun h => ?_, fun h1 h2 => ?_, rfl⟩
  · simp [handle_heater_action, h]
  · have hne : uri ≠ "/heater/on" := by
      rw [h]
      decide
    simp [handle_heater_action, h, hne]
  · simp [handle_heater_action, h1, h2]

/-- Witness for C7 at an unrecognized path: no mutation, still a 302. -/
theorem C7_action_routing_witness :
    ((handle_heater_action "/heater/blast"
        { gpio := fun _ => Level.low, heater := false, log := [] }).1 =
      { gpio := fun _ => Level.low, heater := false, log := [] }) ∧
    (handle_heater_action "/heater/blast"
        { gpio := fun _ => Level.low, heater := false, log := [] }).2 =
      { status := 302, location := some "/heater", closeConn := true } :=
  ⟨(C7_action_routing "/heater/blast"
      { gpio := fun _ => Level.low, heater := false, log := [] }).2.2.1
        (by decide) (by decide),
   (C7_action_routing "/heater/blast"
      { gpio := fun _ => Level.low, heater := false, log := [] }).2.2.2⟩

/-- C8: set_heater writes both the indicator (LED) and relay outputs to the
level for the new value, stores the boolean (so get_heater returns it), and
appends exactly one log line naming the new state; this holds for every
prior state, in particular when the new value equals the current one. -/
theorem C8_set_actuator (isOn : Bool) (s : SysState) :
    (set_heater isOn s).gpio LED_GPIO = levelFor isOn ∧
    (set_heater isOn s).gpio RELAY_GPIO = levelFor isOn ∧
    get_heater (set_heater isOn s) = isOn ∧
    (set_heater isOn s).log = s.log ++ ["Heater " ++ (if isOn then "on" else "off")] := by
  refine ⟨?_, ?_, rfl, rfl⟩
  · simp [set_heater, gpioWrite, LED_GPIO, RELAY_GPIO]
  · simp [set_heater, gpioWrite, LED_GPIO, RELAY_GPIO]

/-- C10: from a bootstrap state whose stored boolean is the static
initializer false, mg_app_init drives both outputs low, so the invariant
"both outputs match the stored boolean" holds at init; and every
set_heater call re-establishes it, set_heater being the only writer. -/
theorem C10_init_invariant (s : SysState) (hh : s.heater = initial_heater) :
    actuator_outputs_match (mg_app_init s) ∧
    get_heater (mg_app_init s) = false ∧
    ∀ (s2 : SysState) (b : Bool), actuator_outputs_match (set_heater b s2) := by
  have hh0 : s.heater = false := hh
  refine ⟨?_, ?_, ?_⟩
  · constructor
    · simp [mg_app_init, gpioWrite, LED_GPIO, RELAY_GPIO, hh0, levelFor]
    · simp [mg_app_init, gpioWrite, LED_GPIO, RELAY_GPIO, hh0, levelFor]
  · simp [mg_app_init, gpioWrite, get_heater, hh0]
  · intro s2 b
    constructor
    · simp [set_heater, gpioWrite, LED_GPIO, RELAY_GPIO]
    · simp [set_heater, gpioWrite, LED_GPIO, RELAY_GPIO]

/-- Witness for C10 at a concrete pre-init state (pins floating high). -/
theorem C10_init_invariant_witness :
    actuator_outputs_match (mg_app_init
      { gpio := fun _ => Level.high, heater := false, log := [] }) ∧
    get_heater (mg_app_init
      { gpio := fun _ => Level.high, heater := false, log := [] }) = false ∧
    ∀ (s2 : SysState) (b : Bool), actuator_outputs_match (set_heater b s2) :=
  C10_init_invariant { gpio := fun _ => Level.high, heater := false, log := [] } rfl

/-! ## Status page rendering (claim C2) -/

lemma strContains_of_middle (pre pat post : String) :
    strContains (pre ++ (pat ++ post)) pat = true := by
  unfold strContains
  rw [List.any_eq_true]
  refine ⟨pre.data.length, List.mem_range.mpr ?_, ?_⟩
  · simp [String.data_append]
    omega
  · have hd : (pre ++ (pat ++ post)).data = pre.data ++ (pat.data ++ post.data) := by
      simp [String.data_append]
    rw [hd, List.drop_left, beq_iff_eq]
    exact List.take_left pat.data post.data

set_option maxRecDepth 20000 in
/-- C2 counterexample: when the read returns the sentinel, the rendered
status page DOES contain a numeric temperature field, namely -1000.00, and
contains no unavailable indication — refuting the claim as stated. -/
theorem C2_sentinel_renders_numeric :
    strContains (handle_heater { ackWrite := false, ackRead := false, upper := 0, lower := 0 }
        { gpio := fun _ => Level.low, heater := false, log := [] } "1.0" "20170112-1453").body
      "Temperature is -1000.00" = true ∧
    strContains (handle_heater { ackWrite := false, ackRead := false, upper := 0, lower := 0 }
        { gpio := fun _ => Level.low, heater := false, log := [] } "1.0" "20170112-1453").body
      "unavailable" = false := by
  have hf : fmt2 (mc6808_read_temp
      { ackWrite := false, ackRead := false, upper := 0, lower := 0 }).1 = "-1000.00" := by
    have h1 : (mc6808_read_temp
        { ackWrite := false, ackRead := false, upper := 0, lower := 0 }).1 = sentinel := rfl
    rw [h1]
    unfold sentinel fmt2 roundHalfEven
    norm_num
    decide
  refine ⟨?_, ?_⟩ <;> simp only [handle_heater, heater_page, hf] <;> decide

/-- C2 amended: every rendering of the status page contains the value
returned by the temperature read formatted to two decimals — when the read
returns the sentinel this is -1000.00, not an unavailable indication, and
when it succeeds it is the reading to two decimals. -/
theorem C2_page_shows_two_decimals (bus : BusResponse) (s : SysState)
    (fw_version fw_id : String) :
    strContains (handle_heater bus s fw_version fw_id).body
      ("Temperature is " ++ fmt2 (mc6808_read_temp bus).1 ++ "&deg;C.") = true := by
  simp only [handle_heater, heater_page]
  exact strContains_of_middle _ _ _

end HeaterApp
